import Mathlib

/-!
Verification development for the RISE EDR cache / filter engine
(`pygeoapi/provider/rise_edr_helpers.py` and `pygeoapi/provider/rise_cache.py`).

Shallow embedding conventions:
- Python exceptions are modeled by `Except PyErr`; `PyErr` distinguishes the
  repository error type `ProviderQueryError` from built-in exceptions
  (`ValueError`, `KeyError`, ...) because the source converts only some
  `ValueError`s into `ProviderQueryError`.
- Python `str` is Lean `String`; the string helpers below reimplement the
  exact CPython semantics of `str.split(sep)` (single-character separator),
  `str.replace(old, new)` (single-character pattern), `str.startswith`,
  `str.endswith` and decimal `int(str)` parsing, structurally on the
  character list so that concrete instances evaluate in the kernel.
- Python `float` attribute values are modeled as exact rationals; the
  only float operation the claims touch is `int(float(x))`, truncation
  toward zero, which is exact on rationals.
- Python dicts used as URL-keyed caches and fetch-result maps are modeled
  as functions `String → Option α` (their iteration order is never
  observed by the modeled code paths); the paginated `PageMap`, whose
  iteration order `merge_pages` does observe, is an association list.
-/

namespace Rise

/-- Python exception kinds relevant to the embedded code. `queryError`
is the repository type `ProviderQueryError`; the others are Python
built-ins that escape uncaught in the source. -/
inductive PyErr where
  | queryError (msg : String)
  | valueError
  | typeError
  | keyError
  | indexError
deriving DecidableEq, Repr

/-- URL keys are plain strings, as in the source (`Url = str`). -/
abbrev Url := String

deriving instance DecidableEq for Except

/-- Value of a decimal digit character, or `none`. -/
def digitVal (c : Char) : Option Nat :=
  if '0' ≤ c ∧ c ≤ '9' then some (c.toNat - '0'.toNat) else none

/-- Accumulate a decimal value over characters; fails on a non-digit. -/
def digitsValAux : List Char → Nat → Option Nat
  | [], acc => some acc
  | c :: rest, acc =>
    match digitVal c with
    | some d => digitsValAux rest (acc * 10 + d)
    | none => none

/-- Python `int(s)` on a decimal string: an optional sign followed by a
nonempty run of digits; anything else raises `ValueError` (`none` here).
Pythonic extras never exercised by this code base (surrounding
whitespace, underscores between digits) are not modeled. -/
def pyInt (s : String) : Option Int :=
  match s.data with
  | [] => none
  | '+' :: rest =>
    if rest = [] then none else (digitsValAux rest 0).map Int.ofNat
  | '-' :: rest =>
    if rest = [] then none else (digitsValAux rest 0).map (fun n => -(n : Int))
  | cs => (digitsValAux cs 0).map Int.ofNat

/-- Helper for `pySplit`: splits the character list at the separator,
keeping empty chunks, exactly like CPython `str.split` with an explicit
separator. -/
def charSplitAux (sep : Char) : List Char → List Char → List (List Char)
  | [], acc => [acc.reverse]
  | c :: rest, acc =>
    if c = sep then acc.reverse :: charSplitAux sep rest []
    else charSplitAux sep rest (c :: acc)

/-- Python `s.split(sep)` for a one-character separator `sep`:
always returns at least one chunk, keeps empty chunks
(`"10//30".split("/") == ["10", "", "30"]`, `"".split("/") == [""]`). -/
def pySplit (s : String) (sep : Char) : List String :=
  (charSplitAux sep s.data []).map List.asString

/-- Python `s.replace(old, new)` for a one-character pattern `old`:
every occurrence is replaced. -/
def pyReplaceChar (s : String) (old : Char) (new : String) : String :=
  List.asString (s.data.foldr (fun c acc => if c = old then new.data ++ acc else c :: acc) [])

/-- Python `s.startswith(p)`. -/
def pyStartsWith (s p : String) : Bool :=
  p.data.isPrefixOf s.data

/-- Python `s.endswith(p)` for a one-character suffix. -/
def pyEndsWithChar (s : String) (c : Char) : Bool :=
  s.data.getLast? == some c

/-- Python `s.__contains__(c)` (`c in s`) for a single character. -/
def pyContainsChar (s : String) (c : Char) : Bool :=
  s.data.contains c

/-- The `ZType` enum of `rise_api_types.py`. -/
inductive ZType where
  | SINGLE
  | RANGE
  | ENUMERATED_LIST
deriving DecidableEq, Repr

/-- Python `list(range(start, stop, step))`. A zero step raises
`ValueError`; otherwise the length is `max(0, ceil((stop-start)/step))`
(sign-adjusted for a negative step). -/
def pyRange (start stop step : Int) : Except PyErr (List Int) :=
  if step = 0 then .error .valueError
  else
    let len : Nat :=
      if step > 0 then (((stop - start) + step - 1).fdiv step).toNat
      else (((start - stop) + (-step) - 1).fdiv (-step)).toNat
    .ok ((List.range len).map fun i => start + step * (i : Int))

/-- Embedding of `parse_z` (rise_edr_helpers.py:38-68). Branches, in
source order: the empty string returns `None`; an `R`-prefixed string
with exactly three `/`-chunks is the repeat form (its `int()` calls are
outside any `try`, so a malformed number raises an uncaught
`ValueError`); a two-chunk `/` string is a range (same uncaught
`ValueError` behavior); a string containing `,` is an enumerated list
(`ValueError` is caught and re-raised as `ProviderQueryError`);
otherwise a single value (same catch-and-re-raise). -/
def parse_z (z : String) : Except PyErr (Option (ZType × List Int)) :=
  if z = "" then .ok none
  else if pyStartsWith z "R" ∧ (pySplit z '/').length = 3 then
    let z1 := pyReplaceChar z 'R' ""
    let interval := pySplit z1 '/'
    if interval.length ≠ 3 then
      .error (.queryError ("Invalid z interval: " ++ z1))
    else
      match pyInt (interval.getD 0 ""), pyInt (interval.getD 1 ""), pyInt (interval.getD 2 "") with
      | some steps, some start, some step_len =>
        (pyRange start (start + steps * step_len) step_len).map
          (fun l => some (ZType.ENUMERATED_LIST, l))
      | _, _, _ => .error .valueError
  else if pyContainsChar z '/' ∧ (pySplit z '/').length = 2 then
    match pyInt ((pySplit z '/').getD 0 ""), pyInt ((pySplit z '/').getD 1 "") with
    | some start, some stop => .ok (some (ZType.RANGE, [start, stop]))
    | _, _ => .error .valueError
  else if pyContainsChar z ',' then
    match (pySplit z ',').mapM pyInt with
    | some vals => .ok (some (ZType.ENUMERATED_LIST, vals))
    | none => .error (.queryError ("Invalid z value: " ++ z))
  else
    match pyInt z with
    | some v => .ok (some (ZType.SINGLE, [v]))
    | none => .error (.queryError ("Invalid z value: " ++ z))

/-- C5: `parse_z` maps `"10"` to `(SINGLE, [10])`, `"10/20"` to
`(RANGE, [10, 20])`, `"10,20,30"` to `(ENUMERATED_LIST, [10, 20, 30])`,
`"R2/100/50"` to `(ENUMERATED_LIST, [100, 150])`, and raises
`ProviderQueryError` on `"10/20/30"`, `"10//30"` and `"10,20,30,"`. -/
theorem parse_z_spec :
    parse_z "10" = .ok (some (ZType.SINGLE, [10]))
    ∧ parse_z "10/20" = .ok (some (ZType.RANGE, [10, 20]))
    ∧ parse_z "10,20,30" = .ok (some (ZType.ENUMERATED_LIST, [10, 20, 30]))
    ∧ parse_z "R2/100/50" = .ok (some (ZType.ENUMERATED_LIST, [100, 150]))
    ∧ parse_z "10/20/30" = .error (.queryError "Invalid z value: 10/20/30")
    ∧ parse_z "10//30" = .error (.queryError "Invalid z value: 10//30")
    ∧ parse_z "10,20,30," = .error (.queryError "Invalid z value: 10,20,30,") :=
  ⟨rfl, rfl, rfl, rfl, rfl, rfl, rfl⟩

/-! ### Location records and the date filter -/

/-- Projection of a location record `attributes` dict onto the fields the
filter engine reads: the numeric `_id`, the `updateDate` string and the
`elevation` value. `elevation = some q` models an attribute that
`int(float(...))` parses to the exact rational `q`; `none` models a
missing or unparseable elevation (the `ValueError`/`TypeError` branch).
The attributes dict itself is always nonempty in this model, so the
`if not location_response["data"][0]["attributes"]` guard of
`filter_by_date` never fires. -/
structure LocationAttributes where
  locId : Int
  updateDate : String
  elevation : Option ℚ
deriving DecidableEq, Repr

/-- One entry of `location_response["data"]`. -/
structure LocationRecord where
  attributes : LocationAttributes
deriving DecidableEq, Repr

/-- Python `datetime` values as an abstract linear timeline:
`datetime.min`, `datetime.max`, and parsed timestamps as integers.
The source normalizes `tzinfo` to UTC on both bounds
(`start.replace(tzinfo=utc)`), which is the identity on this
single-timeline model. -/
inductive PyDatetime where
  | min
  | max
  | val (t : Int)
deriving DecidableEq, Repr

/-- Strict comparison on `PyDatetime` (`a < b` in Python). -/
def pdLt : PyDatetime → PyDatetime → Bool
  | .min, .min => false
  | .min, _ => true
  | .val _, .min => false
  | .val x, .val y => x < y
  | .val _, .max => true
  | .max, _ => false

/-- CPython semantics of removing list elements inside
`for i, location in enumerate(lst): ... lst.pop(i)`.
After `lst.pop(i)` the iterator still advances to index `i + 1` of the
mutated list, so the element that slid into slot `i` (here `r2`) is
never examined: it survives regardless of the predicate. `bad` returns
`Except` because the loop body may itself raise (e.g. an unparseable
record timestamp). -/
def popSkipFilter (bad : LocationRecord → Except PyErr Bool) :
    List LocationRecord → Except PyErr (List LocationRecord)
  | [] => .ok []
  | [r] => (bad r).map fun b => if b then [] else [r]
  | r1 :: r2 :: rest =>
    (bad r1).bind fun b =>
      if b then (popSkipFilter bad rest).map (fun t => r2 :: t)
      else (popSkipFilter bad (r2 :: rest)).map (fun t => r1 :: t)

/-- Embedding of `LocationHelper.filter_by_date`
(rise_edr_helpers.py:396-466). `parseISO` stands for the external
`datetime.datetime.fromisoformat`: it returns the tz-awareness of the
parsed value (`tzinfo is not None`) together with its instant on the
abstract timeline, and `none` models the `ValueError` it raises on an
unparseable string (uncaught in the source). The function receives the
`"data"` list of the response. Structure, in source order: an empty
data list makes `location_response["data"][0]` raise `IndexError`; the
argument is split on `/`; with two chunks each bound has a trailing
`Z` rewritten to `+00:00`, `".."` maps to `datetime.min`/`datetime.max`,
and both bounds are then made tz-aware by `.replace(tzinfo=utc)`, so
their parsed awareness flag is discarded; a start after the end raises
`ProviderQueryError`; records outside the closed range are removed by
the `enumerate`/`pop` loop (see `popSkipFilter`), where the comparison
`updateDate < start` between a NAIVE record timestamp (awareness flag
false — the record value is NOT passed through `replace(tzinfo=...)`)
and the aware bound raises `TypeError` in CPython, aborting the call at
that record; with one chunk, records whose `updateDate` string does not
start with it are removed by the same kind of loop (no parsing, so no
`TypeError` path); any other chunk count raises `ProviderQueryError`. -/
def filter_by_date (parseISO : String → Option (Bool × Int))
    (data : List LocationRecord) (datetime_ : String) :
    Except PyErr (List LocationRecord) :=
  match data with
  | [] => .error .indexError
  | _ :: _ =>
    match pySplit datetime_ '/' with
    | [s0, e0] =>
      let s1 := if pyEndsWithChar s0 'Z' then pyReplaceChar s0 'Z' "+00:00" else s0
      let e1 := if pyEndsWithChar e0 'Z' then pyReplaceChar e0 'Z' "+00:00" else e0
      let sDT : Except PyErr PyDatetime :=
        if s1 = ".." then .ok .min else
          match parseISO s1 with
          | some p => .ok (.val p.2)
          | none => .error .valueError
      let eDT : Except PyErr PyDatetime :=
        if e1 = ".." then .ok .max else
          match parseISO e1 with
          | some p => .ok (.val p.2)
          | none => .error .valueError
      sDT.bind fun start =>
        eDT.bind fun stop =>
          if pdLt stop start then
            .error (.queryError "Start date must be before end date")
          else
            popSkipFilter
              (fun r =>
                match parseISO r.attributes.updateDate with
                | none => .error .valueError
                | some (aware, t) =>
                  if aware then .ok (pdLt (.val t) start || pdLt stop (.val t))
                  else .error .typeError)
              data
    | [d0] =>
      popSkipFilter
        (fun r => .ok (!pyStartsWith r.attributes.updateDate d0)) data
    | _ =>
      .error (.queryError
        "datetime_ must be a date or date range with two dates separated by a slash")

/-- State of the data list held by the CALLER after `filter_by_date`
returns. The source copies the response dict shallowly
(`filteredResp = location_response.copy()`), so `filteredResp["data"]`
and the input dict `"data"` key are the same Python list object; every
`pop` inside the loop mutates it in place, and on a successful return
the caller sees exactly the filtered list rather than the original
one. -/
def filter_by_date_inputDataAfter (parseISO : String → Option (Bool × Int))
    (data : List LocationRecord) (datetime_ : String) :
    Except PyErr (List LocationRecord) :=
  filter_by_date parseISO data datetime_

/-- Concrete stand-in for `datetime.fromisoformat` used in the C2/C4
evaluation theorems: the bound date strings parse as naive (their
awareness is discarded by `replace(tzinfo=utc)` anyway), the
`+00:00`-suffixed record timestamps parse as tz-aware, and the
suffix-less variant of the first record timestamp parses as naive. -/
def demoParseISO : String → Option (Bool × Int) := fun s =>
  if s = "2021-01-01" then some (false, 100)
  else if s = "2021-12-31" then some (false, 200)
  else if s = "2020-06-01T00:00:00+00:00" then some (true, 50)
  else if s = "2020-07-01T00:00:00+00:00" then some (true, 60)
  else if s = "2020-06-01T00:00:00" then some (false, 50)
  else none

/-- Record whose tz-aware update timestamp (2020-06-01 UTC, instant 50)
is outside the queried range 2021-01-01/2021-12-31
(instants 100..200). -/
def c2rec : LocationRecord :=
  { attributes :=
    { locId := 1, updateDate := "2020-06-01T00:00:00+00:00", elevation := none } }

/-- Naive-timestamp sibling of `c2rec`, documenting the error path of
the embedding: its `updateDate` lacks an offset, so the source raises
`TypeError` at `updateDate < start` before any pop. -/
def c2recNaive : LocationRecord :=
  { attributes :=
    { locId := 1, updateDate := "2020-06-01T00:00:00", elevation := none } }

/-- Comparing a record whose `updateDate` parses as tz-naive against the
tz-aware bounds raises `TypeError` (no record is popped in that case);
this eliminates the naive timestamps from the C2/C4 failing inputs. -/
theorem filter_by_date_naive_timestamp_typeerror :
    filter_by_date demoParseISO [c2recNaive] "2021-01-01/2021-12-31"
      = .error .typeError :=
  rfl

/-- C2: evaluation at the failing input. The collection held one record
before the call (`[c2rec]`, tz-aware timestamp, so the comparison with
the aware bounds succeeds); after `filter_by_date` returns, the list
reachable from the input dict is empty, because the shallow
`dict.copy()` shares the `"data"` list with the caller and the loop
pops the out-of-range record from that shared list. The claim that
every filtering operation leaves its input collection unchanged is
therefore false for `filter_by_date`. -/
theorem filter_by_date_mutates_shared_data :
    filter_by_date_inputDataAfter demoParseISO [c2rec] "2021-01-01/2021-12-31" = .ok []
    ∧ ([] : List LocationRecord) ≠ [c2rec] :=
  ⟨rfl, by decide⟩

/-- First of two consecutive out-of-range records (tz-aware,
instant 50). -/
def c4recA : LocationRecord :=
  { attributes :=
    { locId := 2, updateDate := "2020-06-01T00:00:00+00:00", elevation := none } }

/-- Second of two consecutive out-of-range records (tz-aware,
instant 60). -/
def c4recB : LocationRecord :=
  { attributes :=
    { locId := 3, updateDate := "2020-07-01T00:00:00+00:00", elevation := none } }

/-- C4: evaluation at the failing input. Both records carry tz-aware
timestamps lying strictly before the closed range
2021-01-01/2021-12-31 (instants 50 and 60 versus 100..200), so a
filter returning exactly the in-range records would return the empty
list; the source returns `[c4recB]` because popping index 0 inside the
`enumerate` loop shifts the second record into slot 0 where the
iterator never examines it. -/
theorem filter_by_date_skips_after_pop :
    filter_by_date demoParseISO [c4recA, c4recB] "2021-01-01/2021-12-31" = .ok [c4recB]
    ∧ demoParseISO c4recB.attributes.updateDate = some (true, 60)
    ∧ pdLt (.val 60) (.val 100) = true :=
  ⟨rfl, rfl, rfl⟩

/-! ### drop_location and filter_by_limit -/

/-- Embedding of `LocationHelper.drop_location`
(rise_edr_helpers.py:366-376): a list comprehension keeping every
record whose `attributes["_id"]` differs from `location_id`. (The
shallow `response.copy()` plus `new.update({"data": ...})` rebinds the
`"data"` key of the copy to the fresh comprehension list, so the input
is not mutated here.) -/
def drop_location (data : List LocationRecord) (location_id : Int) :
    List LocationRecord :=
  data.filter (fun loc => loc.attributes.locId ≠ location_id)

/-- Two records sharing the numeric id 1. -/
def c7rec1 : LocationRecord :=
  { attributes := { locId := 1, updateDate := "2020-01-01", elevation := none } }

/-- Second record with the same numeric id 1. -/
def c7rec2 : LocationRecord :=
  { attributes := { locId := 1, updateDate := "2020-01-02", elevation := none } }

/-- C7 counterexample: on a two-record collection in which BOTH records
carry the numeric id 1, `drop_location` removes both, so the record
count drops by two, not by exactly one as the claim states for any
collection containing the id. -/
theorem drop_location_counterexample :
    drop_location [c7rec1, c7rec2] 1 = []
    ∧ c7rec1.attributes.locId = 1
    ∧ ([c7rec1, c7rec2] : List LocationRecord).length = 2 := by
  refine ⟨?_, rfl, rfl⟩
  decide

/-- C7 amended: `drop_location(c, id)` removes exactly the records whose
numeric id equals `id` — the count drops by the number of such records
(hence by one when exactly one record carries the id, by zero when the
id is absent) — and the result never contains a record with that id. -/
theorem drop_location_spec (data : List LocationRecord) (i : Int) :
    (drop_location data i).length
        + data.countP (fun r => r.attributes.locId == i) = data.length
    ∧ (∀ r ∈ drop_location data i, r.attributes.locId ≠ i)
    ∧ ((∀ r ∈ data, r.attributes.locId ≠ i) → drop_location data i = data) := by
  refine ⟨?_, ?_, ?_⟩
  · induction data with
    | nil => rfl
    | cons r rest ih =>
      by_cases h : r.attributes.locId = i
      · simp [drop_location, List.countP_cons, h] at ih ⊢
        omega
      · simp [drop_location, List.countP_cons, h] at ih ⊢
        omega
  · intro r hr
    have := List.of_mem_filter hr
    simpa using this
  · intro hall
    apply List.filter_eq_self.mpr
    intro r hr
    simpa using hall r hr

/-- Record with numeric id 9, used by the C7 witness. -/
def c7rec9 : LocationRecord :=
  { attributes := { locId := 9, updateDate := "2020-01-03", elevation := none } }

/-- C7 witness: a concrete application of `drop_location_spec` on a
collection holding the target id exactly once (`c7rec1` with id 1 and a
record with id 9); the membership hypothesis is discharged at `c7rec1`,
which survives the drop of id 9. -/
theorem drop_location_spec_witness :
    (drop_location [c7rec1, c7rec9] 9).length
        + ([c7rec1, c7rec9] : List LocationRecord).countP
            (fun r => r.attributes.locId == 9) = 2
    ∧ c7rec1.attributes.locId ≠ 9 := by
  have h := drop_location_spec [c7rec1, c7rec9] 9
  refine ⟨h.1, h.2.1 c7rec1 ?_⟩
  decide

/-- Python list slicing `l[:stop]` with a possibly negative `stop`:
a nonnegative `stop` keeps the first `min(stop, len(l))` elements, a
negative one drops `|stop|` elements from the end
(`max(0, len(l) + stop)` kept). -/
def pySliceStop (l : List LocationRecord) (stop : Int) : List LocationRecord :=
  if stop < 0 then l.take (l.length - stop.natAbs) else l.take stop.toNat

/-- Embedding of `LocationHelper.filter_by_limit`
(rise_edr_helpers.py:544-551) with the default `inplace=False`: the
response is deep-copied and its `"data"` list replaced by
`data[:limit]`; the function returns that sliced list. -/
def filter_by_limit (data : List LocationRecord) (limit : Int) :
    List LocationRecord :=
  pySliceStop data limit

/-- First record of the C8 collection. -/
def c8rec1 : LocationRecord :=
  { attributes := { locId := 11, updateDate := "2021-01-01", elevation := none } }

/-- Second record of the C8 collection. -/
def c8rec2 : LocationRecord :=
  { attributes := { locId := 12, updateDate := "2021-01-02", elevation := none } }

/-- C8 counterexample: at the limit `-1` (the claim quantifies over
every limit, and the Python parameter is a plain `int`), slicing keeps
one record out of two — `data[:-1]` drops the last element — whereas
`min(-1, 2) = -1` is not the length of any collection. -/
theorem filter_by_limit_counterexample :
    filter_by_limit [c8rec1, c8rec2] (-1) = [c8rec1]
    ∧ ((filter_by_limit [c8rec1, c8rec2] (-1)).length : Int)
        ≠ min (-1) (([c8rec1, c8rec2] : List LocationRecord).length : Int) := by
  refine ⟨?_, ?_⟩ <;> decide

/-- C8 amended: for every collection and every NONNEGATIVE limit `L`,
`filter_by_limit` returns the prefix `data.take L` of exactly
`min(L, len(data))` records (a negative limit instead drops `|L|`
records from the end, per Python slice semantics — see the
counterexample). -/
theorem filter_by_limit_spec (data : List LocationRecord) (L : Int)
    (h : 0 ≤ L) :
    filter_by_limit data L = data.take L.toNat
    ∧ (filter_by_limit data L).length = min L.toNat data.length := by
  have hneg : ¬ L < 0 := not_lt.mpr h
  constructor
  · simp [filter_by_limit, pySliceStop, hneg]
  · simp [filter_by_limit, pySliceStop, hneg, List.length_take]

/-- C8 witness: `filter_by_limit_spec` applied at limit 1 on the
two-record collection. -/
theorem filter_by_limit_spec_witness :
    (0 : Int) ≤ 1
    ∧ (filter_by_limit [c8rec1, c8rec2] 1
          = ([c8rec1, c8rec2] : List LocationRecord).take (1 : Int).toNat
        ∧ (filter_by_limit [c8rec1, c8rec2] 1).length
            = min (1 : Int).toNat ([c8rec1, c8rec2] : List LocationRecord).length) :=
  ⟨by decide, filter_by_limit_spec [c8rec1, c8rec2] 1 (by decide)⟩

/-! ### merge_pages -/

/-- Projection of one page payload onto the only key `merge_pages`
touches: `data? = some l` models a payload whose `"data"` key holds the
record list `l` (records are opaque, modeled as naturals); `none`
models a payload with no `"data"` key. All other payload keys are
carried along unchanged by the source and are irrelevant here. -/
structure PagePayload where
  data? : Option (List Nat)
deriving DecidableEq, Repr

/-- Loop body of `merge_pages` (rise_edr_helpers.py:106-126), folding
the page list with the `combined_url`/`combined_data` accumulators of
the source. For every page after the one captured as `combined_data`,
`content.get("data", [])` yields `[]` when the key is absent and the
falsy check skips empty record arrays; a nonempty array is appended via
`combined_data["data"].extend(data)`, which raises `KeyError` when the
FIRST page had no `"data"` key. -/
def merge_pages_loop :
    List (Url × PagePayload) → Option Url → Option PagePayload →
    Except PyErr (Option Url × Option PagePayload)
  | [], cu, cd => .ok (cu, cd)
  | (url, content) :: rest, cu, cd =>
    let cu1 := if cu.isNone then some url else cu
    match cd with
    | none => merge_pages_loop rest cu1 (some content)
    | some d =>
      let data := content.data?.getD []
      if data.isEmpty then merge_pages_loop rest cu1 (some d)
      else
        match d.data? with
        | none => .error .keyError
        | some dd =>
          merge_pages_loop rest cu1 (some { d with data? := some (dd ++ data) })

/-- Embedding of `merge_pages`: the PageMap is an association list in
dict-iteration (insertion) order; the result is the single-entry dict
`{combined_url: combined_data}` (both components are `None` when the
input map is empty, hence the `Option`s). -/
def merge_pages (pages : List (Url × PagePayload)) :
    Except PyErr (List (Option Url × Option PagePayload)) :=
  (merge_pages_loop pages none none).map (fun p => [(p.1, p.2)])

/-- C3 counterexample: when the FIRST page has no record array and a
later page has a nonempty one, `combined_data["data"].extend(...)`
raises `KeyError` — the page without a record array is not skipped, the
whole merge fails. -/
theorem merge_pages_counterexample :
    merge_pages [("p1", ({ data? := none } : PagePayload)),
                 ("p2", { data? := some [7] })] = .error .keyError := rfl

/-- Accumulator lemma for `merge_pages_loop`: once the synthetic key and
a first payload carrying a record array are fixed, the loop appends, in
page order, the record array of every later page (absent arrays
contribute `getD [] = []`). -/
theorem merge_pages_loop_acc (rest : List (Url × PagePayload)) (cu : Url)
    (dd : List Nat) :
    merge_pages_loop rest (some cu) (some { data? := some dd })
      = .ok (some cu,
          some ⟨some (dd ++ (rest.map fun q => q.2.data?.getD []).flatten)⟩) := by
  induction rest generalizing dd with
  | nil => simp [merge_pages_loop]
  | cons page rest ih =>
    obtain ⟨url, content⟩ := page
    match hc : content.data? with
    | none =>
      simp [merge_pages_loop, hc, ih]
    | some l =>
      by_cases hl : l.isEmpty
      · have : l = [] := List.isEmpty_iff.mp hl
        subst this
        simp [merge_pages_loop, hc, ih]
      · simp [merge_pages_loop, hc, hl, ih, List.append_assoc]

/-- C3 amended: for a PageMap whose FIRST page carries a record array,
`merge_pages` returns the single-entry map keyed by the first page URL
whose record array is the ordered concatenation of all page record
arrays — `Σ n_i` records in page order — and every LATER page without a
record array is skipped rather than causing an error (contributing
`getD [] = []` to the concatenation); a first page without a record
array instead raises `KeyError` as soon as a later page has records
(see the counterexample). -/
theorem merge_pages_spec (u : Url) (p : PagePayload)
    (rest : List (Url × PagePayload)) (hp : p.data?.isSome) :
    merge_pages ((u, p) :: rest)
      = .ok [(some u,
          some ⟨some (p.data?.getD [] ++ (rest.map fun q => q.2.data?.getD []).flatten)⟩)]
    ∧ (p.data?.getD [] ++ (rest.map fun q => q.2.data?.getD []).flatten).length
        = (p.data?.getD []).length
          + (rest.map fun q => (q.2.data?.getD []).length).sum := by
  constructor
  · obtain ⟨dd, hdd⟩ := Option.isSome_iff_exists.mp hp
    have hpe : p = { data? := some dd } := by
      cases p with
      | mk d => simpa using hdd
    subst hpe
    simp [merge_pages, merge_pages_loop, merge_pages_loop_acc, Except.map]
  · simp [List.length_flatten, Function.comp_def]

/-- C3 witness: `merge_pages_spec` applied to three concrete pages —
the first with records `[1, 2]`, a second with no record array
(skipped), a third with record `[3]` — merged into `[1, 2, 3]`. -/
theorem merge_pages_spec_witness :
    merge_pages [("page1", ({ data? := some [1, 2] } : PagePayload)),
                 ("page2", { data? := none }),
                 ("page3", { data? := some [3] })]
      = .ok [(some "page1", some { data? := some [1, 2, 3] })] := by
  have h := (merge_pages_spec "page1" { data? := some [1, 2] }
    [("page2", { data? := none }), ("page3", { data? := some [3] })]
    (by decide)).1
  simpa using h

/-! ### Geometry / z-level filtering -/

/-- Python `int(float(x))` on the exact rational value of `x`:
truncation toward zero. -/
def truncElev (q : ℚ) : Int :=
  (if q.num < 0 then -1 else 1) * ((q.num.natAbs / q.den : Nat) : Int)

/-- The z-comparison of `_filter_by_geometry`
(rise_edr_helpers.py:516-527), phrased as the KEEP condition (the
source adds the index to `indices_to_pop` on the negation): a range
keeps `x[0] <= e <= x[1]`, a single value keeps `e == x[0]`, an
enumerated list keeps membership. `parse_z` always returns a list long
enough for the `x[0]`/`x[1]` subscripts, so the `getD` defaults are
never consulted. -/
def zKeep : ZType × List Int → Int → Bool
  | (.RANGE, xs), e => !(e < xs.getD 0 0 || e > xs.getD 1 0)
  | (.SINGLE, xs), e => e == xs.getD 0 0
  | (.ENUMERATED_LIST, xs), e => xs.contains e

/-- Embedding of `LocationHelper._filter_by_geometry`
(rise_edr_helpers.py:494-542). The response is deep-copied and records
whose index lands in `indices_to_pop` are removed by popping the
reverse-sorted index set, which removes exactly the marked records —
i.e. a filter by the conjunction of the two KEEP conditions. The z
string is parsed unless it is `None` or empty (`if z` is falsy on
`""`); a `parse_z` failure propagates. When a z-filter is active, the
elevation is `int(float(...))`-truncated before any comparison
(`truncElev` on the rational model) and a record with missing or
unparseable elevation is dropped. The external shapely containment test
is the opaque predicate `geomKeep`; `none` models `geometry=None`
(no geometry filtering). -/
def filter_by_geometry (geomKeep : Option (LocationRecord → Bool))
    (z : Option String) (data : List LocationRecord) :
    Except PyErr (List LocationRecord) :=
  let pzE : Except PyErr (Option (ZType × List Int)) :=
    match z with
    | none => .ok none
    | some s => if s = "" then .ok none else parse_z s
  pzE.map fun pz =>
    data.filter fun r =>
      (match pz with
       | none => true
       | some zf =>
         match r.attributes.elevation with
         | none => false
         | some q => zKeep zf (truncElev q))
      && (match geomKeep with
          | none => true
          | some g => g r)

/-- Record with the given elevation (update date and id irrelevant to
the z filter). -/
def recWithElev (q : ℚ) : LocationRecord :=
  { attributes := { locId := 1, updateDate := "2021-01-01", elevation := some q } }

/-- C10: with a z filter active, the elevation is truncated toward zero
to an integer before any comparison: for every elevation `q`, the
single-value filter `z="10"` keeps the record iff `trunc(q) = 10` and
the range filter `z="5/10"` keeps it iff `5 ≤ trunc(q) ≤ 10`; in
particular the record with stored elevation 10.9 is kept by both, even
though 10.9 exceeds the bound 10. -/
theorem filter_by_geometry_truncates_elevation :
    (∀ q : ℚ, filter_by_geometry none (some "10") [recWithElev q]
        = .ok (if truncElev q = 10 then [recWithElev q] else []))
    ∧ (∀ q : ℚ, filter_by_geometry none (some "5/10") [recWithElev q]
        = .ok (if 5 ≤ truncElev q ∧ truncElev q ≤ 10 then [recWithElev q] else []))
    ∧ filter_by_geometry none (some "10") [recWithElev (mkRat 109 10)]
        = .ok [recWithElev (mkRat 109 10)]
    ∧ filter_by_geometry none (some "5/10") [recWithElev (mkRat 109 10)]
        = .ok [recWithElev (mkRat 109 10)]
    ∧ truncElev (mkRat 109 10) = 10
    ∧ (10 : ℚ) < mkRat 109 10 := by
  have h10 : parse_z "10" = .ok (some (ZType.SINGLE, [10])) := rfl
  have h510 : parse_z "5/10" = .ok (some (ZType.RANGE, [5, 10])) := rfl
  refine ⟨?_, ?_, ?_, ?_, by decide, by decide⟩
  · intro q
    by_cases h : truncElev q = 10
    · simp [filter_by_geometry, h10, recWithElev, zKeep, h, Except.map]
    · simp [filter_by_geometry, h10, recWithElev, zKeep, h, Except.map]
  · intro q
    by_cases h5 : 5 ≤ truncElev q
    · by_cases h10b : truncElev q ≤ 10
      · simp [filter_by_geometry, h510, recWithElev, zKeep, Except.map,
          not_lt.mpr h5, not_lt.mpr h10b, h5, h10b]
      · simp [filter_by_geometry, h510, recWithElev, zKeep, Except.map,
          not_lt.mpr h5, lt_of_not_le h10b, h5, h10b]
    · simp [filter_by_geometry, h510, recWithElev, zKeep, Except.map,
        lt_of_not_le h5, h5]
  · decide
  · decide

/-! ### Cache store and cache-aside fetch -/

/-- URL-keyed dict (shelve store / fetch-result dict), modeled as a
partial function; iteration order is never observed by the modeled
paths. -/
def UrlMap (α : Type) := Url → Option α

/-- Dict write `d[k] = v`. -/
def dset {α : Type} (d : UrlMap α) (k : Url) (v : α) : UrlMap α :=
  fun x => if x = k then some v else d x

/-- Payloads are opaque where their structure is not inspected. -/
abbrev Payload := String

/-- Embedding of `RISECache.get_or_fetch` (rise_cache.py:126-135,
same logic as rise_edr_helpers.py:167-177): if the url is absent from
the cache or `force_fetch` is set, fetch, write the result under the
url and return it (third component counts the network fetches this call
performed: 1); otherwise return the cached value with no network access
(count 0). `fetchFn` is the external network; the claim concerns the
successful path, so it is total here. -/
def get_or_fetch (fetchFn : Url → Payload) (force_fetch : Bool)
    (url : Url) (db : UrlMap Payload) : Payload × UrlMap Payload × Nat :=
  if (db url).isNone || force_fetch then
    let res := fetchFn url
    (res, dset db url res, 1)
  else
    ((db url).getD "", db, 0)

/-- Total network fetches performed by two successive
`get_or_fetch url` calls (the second call runs on the cache state the
first one produced). -/
def get_or_fetch_twice_count (fetchFn : Url → Payload) (force_fetch : Bool)
    (url : Url) (db : UrlMap Payload) : Nat :=
  (get_or_fetch fetchFn force_fetch url db).2.2
    + (get_or_fetch fetchFn force_fetch url
        (get_or_fetch fetchFn force_fetch url db).2.1).2.2

/-- C9: starting from a cache that does not yet hold `u`, two
`get_or_fetch u` calls without `force_fetch` perform exactly one
network fetch — the first stores the fetched value under `u`, the
second returns that cached value with no network access — while two
calls with `force_fetch=true` perform two fetches, each storing its
result under `u`. -/
theorem get_or_fetch_idempotence (fetchFn : Url → Payload) (u : Url)
    (db : UrlMap Payload) (h : db u = none) :
    get_or_fetch_twice_count fetchFn false u db = 1
    ∧ get_or_fetch_twice_count fetchFn true u db = 2
    ∧ (get_or_fetch fetchFn false u db).2.1 u = some (fetchFn u)
    ∧ (get_or_fetch fetchFn false u
          (get_or_fetch fetchFn false u db).2.1).1 = fetchFn u
    ∧ (get_or_fetch fetchFn true u db).2.1 u = some (fetchFn u)
    ∧ (get_or_fetch fetchFn true u
          (get_or_fetch fetchFn true u db).2.1).2.1 u = some (fetchFn u) := by
  refine ⟨?_, ?_, ?_, ?_, ?_, ?_⟩ <;>
    simp [get_or_fetch_twice_count, get_or_fetch, dset, h]

/-- Cache state with no entries. -/
def emptyCache : UrlMap Payload := fun _ => none

/-- Concrete network stand-in for the C9 witness. -/
def c9fetch : Url → Payload := fun u => "payload-" ++ u

/-- C9 witness: `get_or_fetch_idempotence` applied to the url `"u"`
over the empty cache. -/
theorem get_or_fetch_idempotence_witness :
    get_or_fetch_twice_count c9fetch false "u" emptyCache = 1
    ∧ get_or_fetch_twice_count c9fetch true "u" emptyCache = 2 := by
  have h := get_or_fetch_idempotence c9fetch "u" emptyCache rfl
  exact ⟨h.1, h.2.1⟩

/-! ### Concurrent group fetch -/

/-- Loop of `fetch_url_group` (rise_edr_helpers.py:139-151; identical
logic in `RISECache.fetch_and_set_url_group`, rise_cache.py:218-231):

    for coroutine, url in zip(asyncio.as_completed(tasks), urls):
        result = await coroutine
        results[url] = result

Each list entry pairs the SOURCE url of the i-th COMPLETED task (left
component, produced by `as_completed`) with the i-th url in SUBMISSION
order (right component, from `zip`); the awaited payload of the former
is stored under the latter. An exception raised by a task surfaces at
its position in completion order and aborts the batch. -/
def fetch_url_group_loop {α : Type} (fetchFn : Url → Except PyErr α) :
    List (Option Url × Url) → UrlMap α → Except PyErr (UrlMap α)
  | [], d => .ok d
  | (none, _) :: _, _ => .error .indexError
  | (some src, dest) :: rest, d =>
    match fetchFn src with
    | .error e => .error e
    | .ok v => fetch_url_group_loop fetchFn rest (dset d dest v)

/-- Embedding of `fetch_url_group(urls)`. One task per list entry is
created in submission order; `order` is the completion order of those
tasks (`order.get! i` = index of the task that finishes i-th), a
permutation of `[0, ..., len urls - 1]` chosen by the scheduler. The
result dict is pre-seeded with `{url: {} for url in urls}` (`init`
models the empty payload `{}`), then filled by the zip loop above. The
per-completion cache write `RISECache.set(url, result)` is not modeled;
it stores the same (url, result) pairs the dict receives. -/
def fetch_url_group {α : Type} (fetchFn : Url → Except PyErr α) (init : α)
    (urls : List Url) (order : List Nat) : Except PyErr (UrlMap α) :=
  let d0 : UrlMap α := fun u => if urls.contains u then some init else none
  fetch_url_group_loop fetchFn ((order.map fun j => urls.get? j).zip urls) d0

/-- Lookup in a group-fetch result (`None` on a failed batch). -/
def exGet {α : Type} (r : Except PyErr (UrlMap α)) (u : Url) : Option α :=
  match r with
  | .ok d => d u
  | .error _ => none

/-- Network stand-in for the C1 evaluation: every url fetches
successfully, to a payload naming its url. -/
def c1fetch : Url → Except PyErr Payload := fun u => .ok ("payload-" ++ u)

/-- Result of `fetch_url_group(["a", "b"])` when the task for `"b"`
completes before the task for `"a"` (completion order `[1, 0]`). -/
def c1result : Except PyErr (UrlMap Payload) :=
  fetch_url_group c1fetch "" ["a", "b"] [1, 0]

/-- C1: evaluation at the failing input. With urls `["a", "b"]` and the
second task completing first, the returned map associates the key
`"a"` with the payload fetched from `"b"` and vice versa: `zip` pairs
completion-ordered results with submission-ordered urls, so the mapping
DOES depend on task completion order, contradicting the claim that each
url key maps to the payload fetched from that same url for every
completion order. -/
theorem fetch_url_group_misassociates :
    exGet c1result "a" = some "payload-b"
    ∧ exGet c1result "b" = some "payload-a"
    ∧ c1fetch "a" = .ok "payload-a"
    ∧ ("payload-b" : Payload) ≠ "payload-a" :=
  ⟨rfl, rfl, rfl, by decide⟩

/-! ### Cache-aside group fetch and catalog-item expansion -/

/-- Embedding of `RISECache.get_or_fetch_group`
(rise_edr_helpers.py:210-226, rise_cache.py:200-216): urls are
partitioned into not-cached (`url not in db or force_fetch`) and cached
(`url in db and not force_fetch`); the first partition goes through
`fetch_url_group` (one task per LIST ENTRY, duplicates included), the
second is read locally; `local_fetch.update(await remote_fetch)`
overlays the remote results on the local dict. `order` is the
completion order of the remote batch. -/
def get_or_fetch_group {α : Type} (fetchFn : Url → Except PyErr α)
    (init : α) (force_fetch : Bool) (db : UrlMap α) (urls : List Url)
    (order : List Nat) : Except PyErr (UrlMap α) :=
  let urls_not_in_cache := urls.filter fun u => (db u).isNone || force_fetch
  let urls_in_cache := urls.filter fun u => (db u).isSome && !force_fetch
  match fetch_url_group fetchFn init urls_not_in_cache order with
  | .error e => .error e
  | .ok remote =>
    let local_fetch : UrlMap α := fun u =>
      if u ∈ urls_in_cache then db u else none
    .ok fun u =>
      match remote u with
      | some v => some v
      | none => local_fetch u

/-- Fetched catalog-item payload: `data? = some body` models a response
whose `"data"` key holds the (opaque) resolved catalog item body,
`none` a response with no `"data"` key. -/
structure CatalogPayload where
  data? : Option String
deriving DecidableEq, Repr

/-- One entry of a location's `relationships["catalogItems"]["data"]`
list: initially a stub `{type, id}`, replaced in place by the resolved
body when the fetch supplied one. -/
inductive CatalogEntry where
  | stub (id : String)
  | resolved (body : String)
deriving DecidableEq, Repr

/-- Projection of a location onto what `fill_catalogItems` reads: its
id (the `get_catalogItemURLs` dict key; locations are assumed to carry
distinct ids, as the source keys a dict by them) and its catalog-item
stub ids. -/
structure FillLocation where
  locId : String
  catalogItems : List String
deriving DecidableEq, Repr

/-- Catalog-item url built from a stub id
(`"https://data.usbr.gov" + catalogItem["id"]`). -/
def catalogURL (stubId : String) : Url :=
  "https://data.usbr.gov" ++ stubId

/-- The url list `fill_catalogItems` fetches:
`flatten_values(LocationHelper.get_catalogItemURLs(new))`, i.e. every
location's catalog urls concatenated in location order — one OCCURRENCE
per reference, with no deduplication. -/
def flatCatalogURLs (locs : List FillLocation) : List Url :=
  (locs.map fun L => L.catalogItems.map catalogURL).flatten

/-- The urls for which `fill_catalogItems` issues a network fetch task:
the uncached partition of `flatCatalogURLs` computed by
`get_or_fetch_group` (with `force_fetch` unset, as at the call site);
`fetch_url_group` then spawns exactly one `fetch_url` task per entry of
this list, duplicates included. -/
def fill_catalogItems_fetchCalls (db : UrlMap CatalogPayload)
    (locs : List FillLocation) : List Url :=
  (flatCatalogURLs locs).filter fun u => (db u).isNone

/-- Embedding of `LocationHelper.fill_catalogItems`
(rise_edr_helpers.py:614-668) with the default `add_results=False` (the
`add_results` branch fetches the additional per-item result urls and is
outside the modeled claims). The response is deep-copied; all catalog
urls are group-fetched; then each stub is replaced by the `"data"`
field of the response for its url — a missing url or missing `"data"`
key raises `KeyError`, which is caught, logged and skipped, keeping the
stub. A failed FETCH, in contrast, propagates out of the group fetch
and aborts the whole call (`.error`). -/
def fill_catalogItems (fetchFn : Url → Except PyErr CatalogPayload)
    (db : UrlMap CatalogPayload) (order : List Nat)
    (locs : List FillLocation) : Except PyErr (List (List CatalogEntry)) :=
  match get_or_fetch_group fetchFn ⟨none⟩ false db (flatCatalogURLs locs) order with
  | .error e => .error e
  | .ok resp =>
    .ok (locs.map fun L =>
      L.catalogItems.map fun sid =>
        match resp (catalogURL sid) with
        | some p =>
          match p.data? with
          | some body => CatalogEntry.resolved body
          | none => CatalogEntry.stub sid
        | none => CatalogEntry.stub sid)

/-- Catalog cache with no entries. -/
def emptyCatalogDb : UrlMap CatalogPayload := fun _ => none

/-- First location referencing the shared catalog item. -/
def c6locA : FillLocation :=
  { locId := "100", catalogItems := ["/rise/api/catalog-record/1"] }

/-- Second location referencing the same catalog item. -/
def c6locB : FillLocation :=
  { locId := "200", catalogItems := ["/rise/api/catalog-record/1"] }

/-- C6 counterexample: with two locations referencing the SAME catalog
item and an empty cache, `fill_catalogItems` spawns two fetch tasks for
that one url — the flattened url list is not deduplicated — so the url
is fetched twice in one call, not at most once as claimed. -/
theorem fill_catalogItems_counterexample :
    (fill_catalogItems_fetchCalls emptyCatalogDb [c6locA, c6locB]).count
        (catalogURL "/rise/api/catalog-record/1") = 2
    ∧ ¬ ((2 : Nat) ≤ 1) := by
  refine ⟨?_, by decide⟩
  decide

/-- How a fetched payload resolves one stub: the `"data"` field body
when present, otherwise the stub survives (the `KeyError` branch). -/
def resolveEntry (p : CatalogPayload) (sid : String) : CatalogEntry :=
  match p.data? with
  | some body => CatalogEntry.resolved body
  | none => CatalogEntry.stub sid

/-- Reading task indices back through the url list in submission order
is the identity: the `as_completed` pairs under a
submission-order completion are the diagonal pairs. -/
theorem range_map_getq (us : List Url) :
    (List.range us.length).map (fun j => us.get? j) = us.map some := by
  induction us with
  | nil => rfl
  | cons u t ih =>
    simp only [List.length_cons, List.range_succ_eq_map, List.map_cons,
      List.map_map, List.get?]
    refine congrArg (some u :: ·) ?_
    simpa [Function.comp_def] using ih

/-- Zipping a diagonal of `some`s with the list itself. -/
theorem zip_map_some (us : List Url) :
    (us.map some).zip us = us.map fun u => (some u, u) := by
  induction us with
  | nil => rfl
  | cons u t ih => simp [ih]

/-- The zip loop over diagonal pairs, with a fetch that succeeds
everywhere, writes `fval u` under every url of the batch and leaves
other keys to the seed dict. -/
theorem fetch_url_group_loop_diag {α : Type}
    (fetchFn : Url → Except PyErr α) (fval : Url → α)
    (hf : ∀ u, fetchFn u = .ok (fval u)) :
    ∀ (us : List Url) (d : UrlMap α),
      fetch_url_group_loop fetchFn (us.map fun u => (some u, u)) d
        = .ok (fun x => if x ∈ us then some (fval x) else d x) := by
  intro us
  induction us with
  | nil =>
    intro d
    simp [fetch_url_group_loop]
  | cons u t ih =>
    intro d
    simp only [List.map_cons, fetch_url_group_loop, hf u, ih (dset d u (fval u))]
    refine congrArg Except.ok (funext fun x => ?_)
    by_cases hxt : x ∈ t
    · simp [hxt]
    · by_cases hxu : x = u
      · subst hxu
        simp [hxt, dset]
      · simp [hxt, hxu, dset]

/-- A whole batch fetched under submission-order completion: every
batch url maps to its own fetched payload. -/
theorem fetch_url_group_id {α : Type}
    (fetchFn : Url → Except PyErr α) (fval : Url → α)
    (hf : ∀ u, fetchFn u = .ok (fval u)) (init : α) (us : List Url) :
    fetch_url_group fetchFn init us (List.range us.length)
      = .ok (fun x => if x ∈ us then some (fval x) else none) := by
  unfold fetch_url_group
  rw [range_map_getq, zip_map_some, fetch_url_group_loop_diag fetchFn fval hf]
  refine congrArg Except.ok (funext fun x => ?_)
  by_cases hx : x ∈ us <;> simp [hx]

/-- Cache-aside group fetch under submission-order completion: cached
urls are served from the cache, uncached ones from the network. -/
theorem get_or_fetch_group_id {α : Type}
    (fetchFn : Url → Except PyErr α) (fval : Url → α)
    (hf : ∀ u, fetchFn u = .ok (fval u)) (init : α) (db : UrlMap α)
    (urls : List Url) :
    get_or_fetch_group fetchFn init false db urls
        (List.range (urls.filter fun u => (db u).isNone).length)
      = .ok (fun u =>
          if u ∈ urls.filter (fun x => (db x).isNone) then some (fval u)
          else if u ∈ urls.filter (fun x => (db x).isSome) then db u
          else none) := by
  unfold get_or_fetch_group
  simp only [Bool.or_false, Bool.and_true, Bool.not_false]
  rw [fetch_url_group_id fetchFn fval hf]
  refine congrArg Except.ok (funext fun u => ?_)
  by_cases h1 : u ∈ urls.filter (fun x => (db x).isNone)
  · simp [h1]
  · simp [h1]

/-- Count of an element in a filtered list, when the predicate depends
only on the element itself. -/
theorem count_filter_eval {p : Url → Bool} (l : List Url) (u : Url) :
    (l.filter p).count u = if p u then l.count u else 0 := by
  induction l with
  | nil => simp
  | cons a t ih =>
    by_cases hpa : p a
    · by_cases hua : a = u
      · subst hua
        simp [List.filter_cons, hpa, List.count_cons, ih]
      · simp [List.filter_cons, hpa, List.count_cons, ih, hua]
    · by_cases hua : a = u
      · subst hua
        simp [List.filter_cons, hpa, List.count_cons, ih]
      · simp [List.filter_cons, hpa, List.count_cons, ih, hua]

/-- Every catalog url of a location of the batch is in the flattened
url list. -/
theorem mem_flatCatalogURLs {locs : List FillLocation} {L : FillLocation}
    {sid : String} (hL : L ∈ locs) (hs : sid ∈ L.catalogItems) :
    catalogURL sid ∈ flatCatalogURLs locs := by
  unfold flatCatalogURLs
  refine List.mem_flatten.mpr ⟨L.catalogItems.map catalogURL, ?_, ?_⟩
  · exact List.mem_map.mpr ⟨L, hL, rfl⟩
  · exact List.mem_map.mpr ⟨sid, hs, rfl⟩

/-- C6 amended: when every fetch succeeds and tasks complete in
submission order, `fill_catalogItems` resolves each stub from the
payload of ITS url — the cached one when present, the freshly fetched
one otherwise — keeping the stub (not failing) when that payload lacks
the `"data"` field; and the network fetch tasks it spawns are exactly
one per uncached REFERENCE: a catalog url referenced from several
locations is fetched once per referencing occurrence (no deduplication
by url), and a cached url is not fetched at all. -/
theorem fill_catalogItems_spec
    (fetchFn : Url → Except PyErr CatalogPayload)
    (fval : Url → CatalogPayload) (db : UrlMap CatalogPayload)
    (locs : List FillLocation)
    (hf : ∀ u, fetchFn u = .ok (fval u)) :
    fill_catalogItems fetchFn db
        (List.range (fill_catalogItems_fetchCalls db locs).length) locs
      = .ok (locs.map fun L =>
          L.catalogItems.map fun sid =>
            resolveEntry ((db (catalogURL sid)).getD (fval (catalogURL sid))) sid)
    ∧ ∀ u, (fill_catalogItems_fetchCalls db locs).count u
        = if (db u).isSome then 0 else (flatCatalogURLs locs).count u := by
  constructor
  · unfold fill_catalogItems fill_catalogItems_fetchCalls
    rw [get_or_fetch_group_id fetchFn fval hf]
    refine congrArg Except.ok ?_
    refine List.map_congr_left fun L hL => ?_
    refine List.map_congr_left fun sid hs => ?_
    have hmem := mem_flatCatalogURLs hL hs
    by_cases hdb : (db (catalogURL sid)).isSome
    · obtain ⟨v, hv⟩ := Option.isSome_iff_exists.mp hdb
      have h1 : catalogURL sid ∉
          (flatCatalogURLs locs).filter (fun x => (db x).isNone) := by
        intro hcontra
        have := (List.mem_filter.mp hcontra).2
        simp [hv] at this
      have h2 : catalogURL sid ∈
          (flatCatalogURLs locs).filter (fun x => (db x).isSome) :=
        List.mem_filter.mpr ⟨hmem, hdb⟩
      simp [h1, h2, hv, resolveEntry]
    · have hnone : db (catalogURL sid) = none :=
        Option.not_isSome_iff_eq_none.mp hdb
      have h1 : catalogURL sid ∈
          (flatCatalogURLs locs).filter (fun x => (db x).isNone) :=
        List.mem_filter.mpr ⟨hmem, by simp [hnone]⟩
      simp [h1, hnone, resolveEntry]
  · intro u
    unfold fill_catalogItems_fetchCalls
    rw [count_filter_eval]
    by_cases hdb : (db u).isSome
    · obtain ⟨v, hv⟩ := Option.isSome_iff_exists.mp hdb
      simp [hv]
    · have hnone : db u = none := Option.not_isSome_iff_eq_none.mp hdb
      simp [hnone]

/-- Network stand-in for the C6 witness, defined through its payload
table so the success hypothesis is definitional. -/
def c6fval : Url → CatalogPayload := fun u =>
  if u = catalogURL "/rise/api/catalog-record/2" then { data? := none }
  else { data? := some ("body-" ++ u) }

/-- The C6 witness network: always succeeds, returning `c6fval`. -/
def c6fetch : Url → Except PyErr CatalogPayload := fun u => .ok (c6fval u)

/-- Location referencing one resolvable catalog item (id 1) and one
whose payload lacks the `"data"` field (id 2). -/
def c6locW : FillLocation :=
  { locId := "300",
    catalogItems := ["/rise/api/catalog-record/1", "/rise/api/catalog-record/2"] }

/-- C6 witness: `fill_catalogItems_spec` applied to the concrete
one-location batch over the empty cache — the first stub resolves, the
second survives as a stub without failing the call, and the resolvable
url is fetched exactly once. -/
theorem fill_catalogItems_spec_witness :
    fill_catalogItems c6fetch emptyCatalogDb
        (List.range (fill_catalogItems_fetchCalls emptyCatalogDb [c6locW]).length)
        [c6locW]
      = .ok [[CatalogEntry.resolved
                ("body-" ++ catalogURL "/rise/api/catalog-record/1"),
              CatalogEntry.stub "/rise/api/catalog-record/2"]]
    ∧ (fill_catalogItems_fetchCalls emptyCatalogDb [c6locW]).count
        (catalogURL "/rise/api/catalog-record/1") = 1 := by
  have h := fill_catalogItems_spec c6fetch c6fval emptyCatalogDb [c6locW]
    (fun u => rfl)
  refine ⟨?_, ?_⟩
  · have h1 := h.1
    simpa [c6locW, c6fval, emptyCatalogDb, resolveEntry, catalogURL] using h1
  · have h2 := h.2 (catalogURL "/rise/api/catalog-record/1")
    simpa [emptyCatalogDb, c6locW, flatCatalogURLs, catalogURL] using h2

end Rise
